import Mathlib

/-!
Shallow embedding of `src/i2c/i2c_slave.rs` (STM32F1 I2C slave driver).

Registers are modelled as explicit state; each driver routine is a pure
function from register state to register state, paired with the trace of
register accesses it performs and the bytes it emits to the diagnostic
sink.  Machine-integer casts (`as u8`, `as u16`, `as u32`) are modelled by
reduction modulo the corresponding power of two.
-/

namespace I2cSlave

/-- Truncating cast to `u8` (`as u8` in the source). -/
def u8 (n : Nat) : Nat := n % 256

/-- Truncating cast to `u16` (`as u16` in the source). -/
def u16 (n : Nat) : Nat := n % 65536

/-- Truncating cast to `u32` (`as u32` in the source). -/
def u32 (n : Nat) : Nat := n % 4294967296

/-- Modelled from the spec: duty-cycle profiles for fast mode
(the `DutyCycle` type lives in the parent module, not in `src/`). -/
inductive DutyCycle
  | Ratio2to1
  | Ratio16to9
  deriving DecidableEq

/-- Modelled from the spec: bus mode `Standard{frequency}` or
`Fast{frequency, dutyCycle}` (the `Mode` type lives in the parent module,
not in `src/`); frequencies are in Hz. -/
inductive Mode
  | Standard (frequency : Nat)
  | Fast (frequency : Nat) (duty_cycle : DutyCycle)
  deriving DecidableEq

/-- Modelled from the spec: the requested bus frequency of a mode, in Hz. -/
def Mode.get_frequency : Mode → Nat
  | .Standard f => f
  | .Fast f _ => f

/-- A single register write performed by `init_slave`, in program order. -/
inductive InitWrite
  | cr2Freq (v : Nat)
  | cr1Disable
  | triseW (v : Nat)
  | ccrW (v : Nat) (duty : Bool) (f_s : Bool)
  | oar1W (addmode : Bool) (add : Nat)
  | cr1Enable
  | cr1AckEngc
  deriving DecidableEq

/-- `own_7_bit_address_setup`: writes OAR1 with ADDMODE cleared and the
address shifted left one bit (`(address as u16) << 1`). -/
def own_7_bit_address_setup (address : Nat) : InitWrite :=
  InitWrite.oar1W false (u16 (u8 address * 2))

/-- `init_slave`: the sequence of register writes performed during
initialization, with the values the source computes (including the
`as u8` / `as u16` truncations and the wrapping `u16` product
`pclk1_mhz * 300`). -/
def init_slave (mode : Mode) (pclk1 : Nat) : List InitWrite :=
  let freq := mode.get_frequency
  let pclk1_mhz := u16 (pclk1 / 1000000)
  [InitWrite.cr2Freq (u8 pclk1_mhz), InitWrite.cr1Disable]
  ++ (match mode with
     | .Standard _ =>
       [InitWrite.triseW (u8 (pclk1_mhz + 1)),
        InitWrite.ccrW (max (u16 (pclk1 / (freq * 2))) 4) false false]
     | .Fast _ duty_cycle =>
       [InitWrite.triseW (u8 (u16 (pclk1_mhz * 300) / 1000 + 1)),
        (match duty_cycle with
         | .Ratio2to1 =>
           InitWrite.ccrW (max (u16 (pclk1 / (freq * 3))) 1) false true
         | .Ratio16to9 =>
           InitWrite.ccrW (max (u16 (pclk1 / (freq * 25))) 1) true true)])
  ++ [own_7_bit_address_setup 0x20, InitWrite.cr1Enable, InitWrite.cr1AckEngc]

/-- `_i2c_slave`: construction.  The source asserts
`mode.get_frequency().0 <= 400_000`; a failed assertion (a panic) is
modelled as `none`, otherwise construction runs `init_slave`. -/
def _i2c_slave (mode : Mode) (pclk1 : Nat) : Option (List InitWrite) :=
  if mode.get_frequency ≤ 400000 then some (init_slave mode pclk1) else none

/-- Status register 1, as the bits the driver inspects. -/
structure SR1 where
  addr : Bool
  rx_ne : Bool
  tx_e : Bool
  btf : Bool
  stopf : Bool
  berr : Bool
  arlo : Bool
  af : Bool
  ovr : Bool
  pecerr : Bool
  timeout : Bool
  smbalert : Bool
  deriving DecidableEq

/-- Status register 2, as the bits the driver inspects. -/
structure SR2 where
  busy : Bool
  tra : Bool
  deriving DecidableEq

/-- Control register 1, as the bits the driver touches at run time. -/
structure CR1 where
  pe : Bool
  ack : Bool
  engc : Bool
  deriving DecidableEq

/-- The run-time register state visible to the polling path. -/
structure HWState where
  sr1 : SR1
  sr2 : SR2
  cr1 : CR1
  dr : Nat
  deriving DecidableEq

/-- The protocol events of the driver (`enum Event`), with the source's
spelling of the transmitter case. -/
inductive Event
  | ReceiverAddressMatched
  | ByteReceived
  | TrasmitterAddressMatched
  | ByteTransmitting
  | ByteTransmitted
  | StopDetected
  deriving DecidableEq

/-- `get_last_event`: reads SR1 and SR2 once and classifies the snapshot
by the source's if/else-if chain, in source order. -/
def get_last_event (sr1 : SR1) (sr2 : SR2) : Option Event :=
  if sr2.busy && sr1.addr then
    some Event.ReceiverAddressMatched
  else if sr2.tra && sr2.busy && sr1.tx_e && sr1.addr then
    some Event.TrasmitterAddressMatched
  else if sr2.busy && sr1.rx_ne then
    some Event.ByteReceived
  else if sr2.tra && sr2.busy && sr1.tx_e && sr1.btf then
    some Event.ByteTransmitted
  else if sr2.tra && sr2.busy && sr1.tx_e then
    some Event.ByteTransmitting
  else if sr1.stopf then
    some Event.StopDetected
  else
    none

/-- The disjunction of the seven sticky error bits tested by
`it_status_clear`. -/
def sr1_error_or (s : SR1) : Bool :=
  s.smbalert || s.timeout || s.pecerr || s.ovr || s.af || s.arlo || s.berr

/-- The single SR1 write of `it_status_clear`: all seven error bits
cleared, every other bit preserved (`modify` semantics). -/
def sr1_clear_errors (s : SR1) : SR1 :=
  { s with smbalert := false, timeout := false, pecerr := false,
           ovr := false, af := false, arlo := false, berr := false }

/-- A run-time register access, in program order. -/
inductive Access
  | readSR1
  | readSR2
  | writeSR1
  | writeCR1
  | readDR (v : Nat)
  | writeDR (v : Nat)
  deriving DecidableEq

/-- `it_status_clear`: read SR1; if any of the seven error bits is set,
clear all seven in one SR1 write. -/
def it_status_clear (hw : HWState) : HWState × List Access :=
  if sr1_error_or hw.sr1 then
    ({ hw with sr1 := sr1_clear_errors hw.sr1 }, [Access.readSR1, Access.writeSR1])
  else
    (hw, [Access.readSR1])

/-- Result of the stop-condition clear loop: final state, number of loop
iterations executed, access trace, and whether the loop exited because the
flag was observed clear (`false` means the fuel bound was reached with the
flag still set, i.e. the source loop is still spinning). -/
structure LoopOut where
  hw : HWState
  iters : Nat
  trace : List Access
  converged : Bool
  deriving DecidableEq

/-- The CR1 write inside the stop-clear loop: re-asserts ACK.  The
parameter `write_clears_stopf` models the hardware response (whether this
write makes the STOPF flag read as cleared afterwards). -/
def cr1_ack_write (write_clears_stopf : Bool) (hw : HWState) : HWState :=
  { hw with cr1 := { hw.cr1 with ack := true },
            sr1 := if write_clears_stopf then { hw.sr1 with stopf := false }
                   else hw.sr1 }

/-- The `while stopf { read SR1; write CR1 }` loop of `clear_flags`,
unrolled on explicit fuel: each check reads SR1; while the flag is set the
body reads SR1 again and writes CR1. -/
def stop_clear_loop (write_clears_stopf : Bool) : Nat → HWState → LoopOut
  | 0, hw =>
    if hw.sr1.stopf then ⟨hw, 0, [Access.readSR1], false⟩
    else ⟨hw, 0, [Access.readSR1], true⟩
  | fuel + 1, hw =>
    if hw.sr1.stopf then
      let r := stop_clear_loop write_clears_stopf fuel (cr1_ack_write write_clears_stopf hw)
      ⟨r.hw, r.iters + 1, Access.readSR1 :: Access.readSR1 :: Access.writeCR1 :: r.trace, r.converged⟩
    else
      ⟨hw, 0, [Access.readSR1], true⟩

/-- `clear_flags`: the ADDR clear sequence (read SR1 for the check, then
read SR1 and SR2 when ADDR is set), followed by the STOPF clear loop. -/
def clear_flags (write_clears_stopf : Bool) (fuel : Nat) (hw : HWState) :
    HWState × List Access × Bool :=
  let addr_trace : List Access :=
    if hw.sr1.addr then [Access.readSR1, Access.readSR1, Access.readSR2]
    else [Access.readSR1]
  let r := stop_clear_loop write_clears_stopf fuel hw
  (r.hw, addr_trace ++ r.trace, r.converged)

/-- `send_data`: one write of the byte to the data register. -/
def send_data (hw : HWState) (data : Nat) : HWState × List Access :=
  ({ hw with dr := u8 data }, [Access.writeDR (u8 data)])

/-- `receive_data`: one read of the data register. -/
def receive_data (hw : HWState) : Nat × List Access :=
  (hw.dr, [Access.readDR hw.dr])

/-- Whether the numbered arm of the `match ev` in `listen` accepts an
event, in source order: arm 3 is the or-pattern
`ByteTransmitted | ByteTransmitting`. -/
def arm_accepts (arm : Nat) (e : Event) : Bool :=
  match arm, e with
  | 0, Event.ReceiverAddressMatched => true
  | 1, Event.ByteReceived => true
  | 2, Event.TrasmitterAddressMatched => true
  | 3, Event.ByteTransmitted => true
  | 3, Event.ByteTransmitting => true
  | 4, Event.StopDetected => true
  | _, _ => false

/-- The first explicit arm of the `match ev` that accepts the event;
`none` means the trailing catch-all `todo!` arm is selected. -/
def first_arm (e : Event) : Option Nat :=
  List.find? (fun a => arm_accepts a e) [0, 1, 2, 3, 4]

/-- Outcome of one `listen` call: final register state, access trace, and
bytes emitted to the diagnostic sink. -/
structure PollOut where
  hw : HWState
  trace : List Access
  output : List Nat
  deriving DecidableEq

/-- The dispatch of the `match ev` in `listen`, arm by arm; selecting the
catch-all `todo!` arm (a fatal abort) is modelled as `none`. -/
def dispatch (write_clears_stopf : Bool) (fuel : Nat) (e : Event) (hw : HWState) :
    Option PollOut :=
  match first_arm e with
  | some 0 => some ⟨hw, [], []⟩
  | some 1 => some ⟨hw, (receive_data hw).2, [(receive_data hw).1]⟩
  | some 2 => some ⟨(send_data hw 0x0A).1, (send_data hw 0x0A).2, []⟩
  | some 3 => some ⟨(send_data hw 0x0B).1, (send_data hw 0x0B).2, []⟩
  | some 4 => some ⟨(clear_flags write_clears_stopf fuel hw).1,
                    (clear_flags write_clears_stopf fuel hw).2.1, []⟩
  | _ => none

/-- `listen`: one poll step — `it_status_clear`, then `get_last_event`
(one SR1 read and one SR2 read), then the dispatch. -/
def listen (write_clears_stopf : Bool) (fuel : Nat) (hw : HWState) : Option PollOut :=
  let hw1 := (it_status_clear hw).1
  let tr1 := (it_status_clear hw).2
  match get_last_event hw1.sr1 hw1.sr2 with
  | none => some ⟨hw1, tr1 ++ [Access.readSR1, Access.readSR2], []⟩
  | some e =>
    (dispatch write_clears_stopf fuel e hw1).map
      (fun p => ⟨p.hw, tr1 ++ [Access.readSR1, Access.readSR2] ++ p.trace, p.output⟩)

/-- `enum State` of the source (stored, never read by `listen`). -/
inductive State
  | None
  | AddrWrite
  | AddrByte
  deriving DecidableEq

/-- `BlockingI2cSlave`: the stored construction parameters (register
access goes through the separate `HWState`). -/
structure BlockingI2cSlave where
  start_timeout : Nat
  start_retries : Nat
  addr_timeout : Nat
  data_timeout : Nat
  state : State
  deriving DecidableEq

/-- `blocking_i2c_slave`: scales the four timeout parameters by the
system-clock MHz value and stores them (`u32` wrapping products). -/
def blocking_i2c_slave (sysclk : Nat) (start_timeout_us : Nat) (start_retries : Nat)
    (addr_timeout_us : Nat) (data_timeout_us : Nat) : BlockingI2cSlave :=
  let sysclk_mhz := sysclk / 1000000
  { start_timeout := u32 (start_timeout_us * sysclk_mhz)
    start_retries := start_retries
    addr_timeout := u32 (addr_timeout_us * sysclk_mhz)
    data_timeout := u32 (data_timeout_us * sysclk_mhz)
    state := State.None }

/-- `BlockingI2cSlave::listen`: the method body touches only the register
interface (`self.nb`), never the stored timeout/retry fields. -/
def BlockingI2cSlave.listen (_slv : BlockingI2cSlave) (write_clears_stopf : Bool)
    (fuel : Nat) (hw : HWState) : Option PollOut :=
  I2cSlave.listen write_clears_stopf fuel hw

/-- Position of the first write matched by `p` in an `init_slave` trace. -/
def write_index (p : InitWrite → Bool) : List InitWrite → Option Nat
  | [] => none
  | w :: ws => if p w then some 0 else (write_index p ws).map (· + 1)

/-- Recognizer for the rise-time register write. -/
def isTrise : InitWrite → Bool
  | InitWrite.triseW _ => true
  | _ => false

/-- Recognizer for the rate-divisor register write. -/
def isCcr : InitWrite → Bool
  | InitWrite.ccrW _ _ _ => true
  | _ => false

/-- Recognizer for the write that sets the peripheral-enable bit. -/
def isEnable : InitWrite → Bool
  | InitWrite.cr1Enable => true
  | _ => false

/-- Recognizer for the write that sets the acknowledge-enable bit. -/
def isAckSet : InitWrite → Bool
  | InitWrite.cr1AckEngc => true
  | _ => false

/-- Recognizer for the own-address register write. -/
def isOar1 : InitWrite → Bool
  | InitWrite.oar1W _ _ => true
  | _ => false

/-- Recognizer for data-register accesses (reads or writes). -/
def isDRAccess : Access → Bool
  | Access.readDR _ => true
  | Access.writeDR _ => true
  | _ => false

/-- An SR1 snapshot with every bit clear. -/
def sr1_all_clear : SR1 :=
  ⟨false, false, false, false, false, false, false, false, false, false, false, false⟩

/-- An SR2 snapshot with every bit clear. -/
def sr2_idle : SR2 := ⟨false, false⟩

/-- CR1 at reset. -/
def cr1_reset : CR1 := ⟨false, false, false⟩

/-- SR1 snapshot with address-match and data-register-empty set. -/
def sr1_c1_example : SR1 := { sr1_all_clear with addr := true, tx_e := true }

/-- SR2 snapshot with bus-busy and transmitting set. -/
def sr2_c1_example : SR2 := ⟨true, true⟩

/-- Register state with only a received byte pending. -/
def hw_rx_example : HWState :=
  ⟨{ sr1_all_clear with rx_ne := true }, ⟨true, false⟩, cr1_reset, 0x5A⟩

/-- Register state with only the acknowledge-failure error bit set. -/
def hw_err_example : HWState := ⟨{ sr1_all_clear with af := true }, sr2_idle, cr1_reset, 0⟩

/-- Register state with only the stop-detected flag set. -/
def hw_stop_example : HWState := ⟨{ sr1_all_clear with stopf := true }, sr2_idle, cr1_reset, 0⟩

/-- The source's first decode branch tests only bus-busy and address-match,
so every snapshot satisfying the second branch's condition also satisfies
the first: no snapshot at all decodes to the transmitter-address-match
event. -/
theorem transmitter_event_unreachable (s1 : SR1) (s2 : SR2) :
    get_last_event s1 s2 ≠ some Event.TrasmitterAddressMatched := by
  unfold get_last_event
  split_ifs with h1 h2 h3 h4 h5 h6 <;> simp_all

/-- Claim C1: at the snapshot with bus-busy, transmitting,
data-register-empty and address-match all set, the decoder returns
`ReceiverAddressMatched` — the first branch tests only busy and
address-match, omitting the not-transmitting conjunct, so the claimed
`TransmitterAddressMatched` outcome never occurs. -/
theorem C1_busy_tra_txe_addr_decodes_receiver :
    get_last_event sr1_c1_example sr2_c1_example = some Event.ReceiverAddressMatched := by
  decide

/-- Claim C4: construction fails (the frequency assertion panics) exactly
when the requested bus frequency exceeds 400000 Hz, for every mode and
duty cycle. -/
theorem C4_construction_frequency_check (mode : Mode) (pclk1 : Nat) :
    (_i2c_slave mode pclk1 = none ↔ 400000 < mode.get_frequency) ∧
    ((_i2c_slave mode pclk1).isSome = true ↔ mode.get_frequency ≤ 400000) := by
  by_cases h : mode.get_frequency ≤ 400000
  · simp [_i2c_slave, h]
  · simp [_i2c_slave, h]
    omega

/-- Claim C5: in every initialization trace the peripheral-enable write
comes strictly after the rise-time and rate-divisor writes, and the
acknowledge-enable write comes strictly after the peripheral-enable
write. -/
theorem C5_init_write_order (mode : Mode) (pclk1 : Nat) :
    ∃ it ic ie ia,
      write_index isTrise (init_slave mode pclk1) = some it ∧
      write_index isCcr (init_slave mode pclk1) = some ic ∧
      write_index isEnable (init_slave mode pclk1) = some ie ∧
      write_index isAckSet (init_slave mode pclk1) = some ia ∧
      it < ie ∧ ic < ie ∧ ie < ia := by
  refine ⟨2, 3, 5, 6, ?_, ?_, ?_, ?_, by omega, by omega, by omega⟩ <;>
    cases mode with
    | Standard f =>
      simp [init_slave, write_index, isTrise, isCcr, isEnable, isAckSet,
            own_7_bit_address_setup]
    | Fast f dc =>
      cases dc <;>
        simp [init_slave, write_index, isTrise, isCcr, isEnable, isAckSet,
              own_7_bit_address_setup]

/-- Claim C9: the dispatch arms of `listen` cover all six `Event`
constructors, so the catch-all fatal-abort arm is never selected and
`listen` always completes. -/
theorem C9_listen_never_aborts (write_clears_stopf : Bool) (fuel : Nat) (hw : HWState) :
    (listen write_clears_stopf fuel hw).isSome = true := by
  have hdisp : ∀ e hw1, (dispatch write_clears_stopf fuel e hw1).isSome = true := by
    intro e hw1
    cases e <;> rfl
  simp only [listen]
  cases hev : get_last_event (it_status_clear hw).1.sr1 (it_status_clear hw).1.sr2 with
  | none => rfl
  | some e => simp [hdisp]

/-- Claim C10: every construction writes the own-address register with the
hard-coded 7-bit address 0x20 shifted left one bit (value 64) and the
extended-addressing mode bit cleared, for every mode and clock. -/
theorem C10_own_address_hard_coded (mode : Mode) (pclk1 : Nat) :
    (init_slave mode pclk1).filter isOar1 = [InitWrite.oar1W false 64] ∧
    own_7_bit_address_setup 0x20 = InitWrite.oar1W false 64 := by
  refine ⟨?_, by decide⟩
  cases mode with
  | Standard f =>
    simp [init_slave, own_7_bit_address_setup, isOar1, List.filter, u16, u8]
  | Fast f dc =>
    cases dc <;>
      simp [init_slave, own_7_bit_address_setup, isOar1, List.filter, u16, u8]

/-- The rise-time value exactly as the claim words it, with no
machine-integer truncation: `clock_MHz + 1` for Standard,
`clock_MHz * 300 / 1000 + 1` for Fast. -/
def spec_rise_time (mode : Mode) (clock : Nat) : Nat :=
  match mode with
  | .Standard _ => clock / 1000000 + 1
  | .Fast _ _ => clock / 1000000 * 300 / 1000 + 1

/-- The claim's rise-time formula amended with the source's
machine-integer truncations (`as u16` on the MHz value, wrapping `u16`
product, `as u8` on the written value). -/
def spec_rise_time_trunc (mode : Mode) (clock : Nat) : Nat :=
  match mode with
  | .Standard _ => u8 (u16 (clock / 1000000) + 1)
  | .Fast _ _ => u8 (u16 (u16 (clock / 1000000) * 300) / 1000 + 1)

/-- The claim's rate-divisor value and the duty / fast-mode flags, amended
with the source's `as u16` truncation of the quotient before the max. -/
def spec_ccr_trunc (mode : Mode) (clock : Nat) : Nat × Bool × Bool :=
  match mode with
  | .Standard f => (max (u16 (clock / (2 * f))) 4, false, false)
  | .Fast f .Ratio2to1 => (max (u16 (clock / (3 * f))) 1, false, true)
  | .Fast f .Ratio16to9 => (max (u16 (clock / (25 * f))) 1, true, true)

/-- Claim C2 counterexample: at input clock 300 MHz in Standard mode at
100 kHz (a valid mode), the code programs rise-time 45 — the `as u8`
truncation of 301 — while the claim's formula `clock_MHz + 1` gives
301. -/
theorem C2_counterexample_trise_truncates :
    (init_slave (Mode.Standard 100000) 300000000).filter isTrise
      = [InitWrite.triseW 45] ∧
    Nat.beq 45 (spec_rise_time (Mode.Standard 100000) 300000000) = false := by
  decide

/-- Claim C2 (amended): for a valid positive-frequency mode the programmed
rise-time and rate-divisor values follow the claim's formulas with the
source's machine-integer truncations applied — rise-time reduced to 8 bits
when written, the divisor quotient reduced to 16 bits before the max, the
duty flag cleared for Ratio2to1 and set for Ratio16to9, and the fast-mode
flag set exactly in Fast mode. -/
theorem C2_amended_timing_values (mode : Mode) (clock : Nat)
    (hpos : 0 < mode.get_frequency) (hmax : mode.get_frequency ≤ 400000) :
    (init_slave mode clock).filter isTrise
      = [InitWrite.triseW (spec_rise_time_trunc mode clock)] ∧
    (init_slave mode clock).filter isCcr
      = [InitWrite.ccrW (spec_ccr_trunc mode clock).1 (spec_ccr_trunc mode clock).2.1
          (spec_ccr_trunc mode clock).2.2] := by
  cases mode with
  | Standard f =>
    simp [init_slave, isTrise, isCcr, List.filter, spec_rise_time_trunc, spec_ccr_trunc,
          own_7_bit_address_setup, Mode.get_frequency, Nat.mul_comm]
  | Fast f dc =>
    cases dc <;>
      simp [init_slave, isTrise, isCcr, List.filter, spec_rise_time_trunc, spec_ccr_trunc,
            own_7_bit_address_setup, Mode.get_frequency, Nat.mul_comm]

/-- Claim C2 amended witness: Fast 400 kHz, Ratio16to9, at clock 8 MHz. -/
theorem C2_amended_timing_values_witness :
    0 < (Mode.Fast 400000 DutyCycle.Ratio16to9).get_frequency ∧
    ((init_slave (Mode.Fast 400000 DutyCycle.Ratio16to9) 8000000).filter isTrise
      = [InitWrite.triseW
          (spec_rise_time_trunc (Mode.Fast 400000 DutyCycle.Ratio16to9) 8000000)] ∧
    (init_slave (Mode.Fast 400000 DutyCycle.Ratio16to9) 8000000).filter isCcr
      = [InitWrite.ccrW (spec_ccr_trunc (Mode.Fast 400000 DutyCycle.Ratio16to9) 8000000).1
          (spec_ccr_trunc (Mode.Fast 400000 DutyCycle.Ratio16to9) 8000000).2.1
          (spec_ccr_trunc (Mode.Fast 400000 DutyCycle.Ratio16to9) 8000000).2.2]) :=
  ⟨by decide,
   C2_amended_timing_values (Mode.Fast 400000 DutyCycle.Ratio16to9) 8000000
     (by decide) (by decide)⟩

/-- Claim C3 counterexample: under a hardware response that never clears
the stop-detected flag, after the claimed bound of 8 iterations the loop
of `clear_flags` is still spinning — it has exited with no fault reported
in 0 of the 8 iterations. -/
theorem C3_counterexample_stop_loop_unbounded :
    (stop_clear_loop false 8 hw_stop_example).converged = false ∧
    (stop_clear_loop false 8 hw_stop_example).iters = 8 := by
  decide

/-- The stop-clear loop exits immediately once the flag reads clear. -/
theorem stop_clear_loop_not_stopf (wc : Bool) (fuel : Nat) (hw : HWState)
    (h : hw.sr1.stopf = false) :
    stop_clear_loop wc fuel hw = ⟨hw, 0, [Access.readSR1], true⟩ := by
  cases fuel <;> simp [stop_clear_loop, h]

/-- Claim C3 (amended): each loop iteration reads status register one and
then writes the control register re-asserting acknowledge-enable; once the
control-register write clears the stop-detected flag, the sequence
terminates after at most one iteration.  If the flag never clears the
source loop spins indefinitely and reports no fault. -/
theorem C3_amended_stop_loop_converges (fuel : Nat) (hw : HWState) :
    (stop_clear_loop true (fuel + 1) hw).converged = true ∧
    (stop_clear_loop true (fuel + 1) hw).iters ≤ 1 ∧
    (stop_clear_loop true (fuel + 1) hw).trace
      = (if hw.sr1.stopf then
          [Access.readSR1, Access.readSR1, Access.writeCR1, Access.readSR1]
         else [Access.readSR1]) := by
  by_cases h : hw.sr1.stopf = true
  · have h2 : (cr1_ack_write true hw).sr1.stopf = false := by
      simp [cr1_ack_write]
    simp [stop_clear_loop, h, stop_clear_loop_not_stopf true fuel _ h2]
  · simp only [Bool.not_eq_true] at h
    simp [stop_clear_loop, h]

/-- Claim C6: when the disjunction of the seven sticky error bits is set,
`it_status_clear` performs one status read and one single write after
which all seven error bits read as cleared. -/
theorem C6_error_flags_cleared (hw : HWState) (h : sr1_error_or hw.sr1 = true) :
    (it_status_clear hw).2 = [Access.readSR1, Access.writeSR1] ∧
    sr1_error_or (it_status_clear hw).1.sr1 = false ∧
    (it_status_clear hw).1.sr1.berr = false ∧
    (it_status_clear hw).1.sr1.arlo = false ∧
    (it_status_clear hw).1.sr1.af = false ∧
    (it_status_clear hw).1.sr1.ovr = false ∧
    (it_status_clear hw).1.sr1.timeout = false ∧
    (it_status_clear hw).1.sr1.pecerr = false ∧
    (it_status_clear hw).1.sr1.smbalert = false := by
  have h2 : it_status_clear hw
      = ({ hw with sr1 := sr1_clear_errors hw.sr1 }, [Access.readSR1, Access.writeSR1]) := by
    rw [it_status_clear, if_pos h]
  rw [h2]
  simp [sr1_error_or, sr1_clear_errors]

/-- Claim C6 witness: only the acknowledge-failure bit set initially. -/
theorem C6_error_flags_cleared_witness :
    (it_status_clear hw_err_example).2 = [Access.readSR1, Access.writeSR1] ∧
    sr1_error_or (it_status_clear hw_err_example).1.sr1 = false ∧
    (it_status_clear hw_err_example).1.sr1.berr = false ∧
    (it_status_clear hw_err_example).1.sr1.arlo = false ∧
    (it_status_clear hw_err_example).1.sr1.af = false ∧
    (it_status_clear hw_err_example).1.sr1.ovr = false ∧
    (it_status_clear hw_err_example).1.sr1.timeout = false ∧
    (it_status_clear hw_err_example).1.sr1.pecerr = false ∧
    (it_status_clear hw_err_example).1.sr1.smbalert = false :=
  C6_error_flags_cleared hw_err_example (by decide)

/-- Clearing the error bits does not change what the decoder sees. -/
theorem get_last_event_clear_errors (s1 : SR1) (s2 : SR2) :
    get_last_event (sr1_clear_errors s1) s2 = get_last_event s1 s2 := rfl

/-- Claim C7: whenever the decoder classifies the state as `ByteReceived`,
one `listen` call reads the data register exactly once, performs no
data-register write, and forwards exactly the byte read to the diagnostic
sink. -/
theorem C7_byte_received_single_read (hw : HWState) (write_clears_stopf : Bool)
    (fuel : Nat) (h : get_last_event hw.sr1 hw.sr2 = some Event.ByteReceived) :
    ∃ p, listen write_clears_stopf fuel hw = some p ∧
      p.output = [hw.dr] ∧
      p.trace.filter isDRAccess = [Access.readDR hw.dr] := by
  by_cases herr : sr1_error_or hw.sr1 = true
  · have hdec : get_last_event (sr1_clear_errors hw.sr1) hw.sr2
        = some Event.ByteReceived := by
      rw [get_last_event_clear_errors]
      exact h
    refine ⟨⟨{ hw with sr1 := sr1_clear_errors hw.sr1 },
      [Access.readSR1, Access.writeSR1, Access.readSR1, Access.readSR2,
       Access.readDR hw.dr], [hw.dr]⟩, ?_, rfl, by simp [List.filter, isDRAccess]⟩
    simp [listen, it_status_clear, herr, hdec, dispatch, first_arm, arm_accepts,
          receive_data, List.find?]
  · simp only [Bool.not_eq_true] at herr
    refine ⟨⟨hw, [Access.readSR1, Access.readSR1, Access.readSR2, Access.readDR hw.dr],
      [hw.dr]⟩, ?_, rfl, by simp [List.filter, isDRAccess]⟩
    simp [listen, it_status_clear, herr, h, dispatch, first_arm, arm_accepts,
          receive_data, List.find?]

/-- Claim C7 witness: busy bus with a pending received byte 0x5A. -/
theorem C7_byte_received_single_read_witness :
    ∃ p, listen true 1 hw_rx_example = some p ∧
      p.output = [hw_rx_example.dr] ∧
      p.trace.filter isDRAccess = [Access.readDR hw_rx_example.dr] :=
  C7_byte_received_single_read hw_rx_example true 1 (by decide)

/-- Claim C8: two slave states that differ only in the four stored
timeout/retry fields produce identical register traffic and identical
diagnostic output on a `listen` call from the same register state. -/
theorem C8_listen_ignores_timeouts (a b c d a' b' c' d' : Nat) (st : State)
    (write_clears_stopf : Bool) (fuel : Nat) (hw : HWState) :
    BlockingI2cSlave.listen ⟨a, b, c, d, st⟩ write_clears_stopf fuel hw
      = BlockingI2cSlave.listen ⟨a', b', c', d', st⟩ write_clears_stopf fuel hw := rfl

end I2cSlave
